import Mathlib

/-!
Verification development for the Wild-Fire-Detection backend
(`backend/yolo_service.py`, `backend/monitoring_service.py`, `backend/main.py`).

Each Python function relevant to the stated properties is shallow-embedded as
an executable Lean definition: timestamps are integers (seconds), confidence
scores are rationals, fallible calls return `Except`, and external
collaborators (satellite imagery source, classifier model, notifier channels)
are parameters of the embedding.
-/

/- ===================================================================
   yolo_service.py — YoloService: live-stream alert dispatcher
   =================================================================== -/

/-- State of `YoloService` relevant to alerting: `self.last_alert_time`
(initially `0`) and `self.alert_cooldown` (30 seconds). -/
structure YoloState where
  lastAlertTime : ℤ
  alertCooldown : ℤ
deriving DecidableEq

/-- `YoloService.__init__`: `last_alert_time = 0`, `alert_cooldown = 30`. -/
def initYoloState : YoloState := { lastAlertTime := 0, alertCooldown := 30 }

/-- Outcome of one call to `YoloService.send_telegram_alert`. -/
inductive AlertOutcome
  | noCredentials
  | suppressed
  | sent
  | sendFailed
deriving DecidableEq

/-- Embeds `YoloService.send_telegram_alert` (yolo_service.py lines 28-50).
`credsOk` models `BOT_TOKEN and CHAT_ID` being set; `currentTime` models
`time.time()`; `sendOk` models whether `requests.post` succeeds or raises.
The code returns with no call when credentials are missing; returns with no
call when `current_time - last_alert_time < alert_cooldown`; otherwise the
spawned `_send` thread posts the message and, only after a successful post,
sets `last_alert_time` to the captured `current_time` (on an exception the
timestamp is left unchanged). -/
def sendTelegramAlert (credsOk : Bool) (sendOk : Bool) (s : YoloState)
    (currentTime : ℤ) : YoloState × AlertOutcome :=
  if credsOk = false then (s, AlertOutcome.noCredentials)
  else if currentTime - s.lastAlertTime < s.alertCooldown then
    (s, AlertOutcome.suppressed)
  else if sendOk then
    ({ s with lastAlertTime := currentTime }, AlertOutcome.sent)
  else (s, AlertOutcome.sendFailed)

/-- A sequence of dispatch attempts through `send_telegram_alert` with
credentials configured and every post succeeding, at the given times. -/
def dispatchRun (s : YoloState) : List ℤ → List AlertOutcome
  | [] => []
  | t :: ts =>
    let r := sendTelegramAlert true true s t
    r.2 :: dispatchRun r.1 ts

/- ===================================================================
   monitoring_service.py — MonitoringService.predict_fire (detection gate)
   =================================================================== -/

/-- Output shape of the classifier collaborator (`detection_model.predict`):
either a single classification vector, or a pair
`[cam_features, classification]` whose second component is the
classification head. The vector is the per-image row `classification[0]`
(the batch dimension of size 1 is dropped in the embedding). -/
inductive ClassifierOutput
  | single (v : List ℚ)
  | pair (aux : List ℚ) (v : List ℚ)
deriving DecidableEq

/-- The shape handling of `predict_fire` lines 97-101: a list of length 2
means `classification = outputs[1]`, otherwise `classification = outputs`. -/
def classificationOf : ClassifierOutput → List ℚ
  | ClassifierOutput.single v => v
  | ClassifierOutput.pair _ v => v

/-- `np.max` over the classification row (`0` only for the empty list, on
which the source raises and is caught as an error). -/
def listMax : List ℚ → ℚ
  | [] => 0
  | [x] => x
  | x :: y :: t => max x (listMax (y :: t))

/-- `np.argmax` over the classification row: index of the first occurrence
of the maximum. -/
def argmaxIdx : List ℚ → ℕ
  | [] => 0
  | [_] => 0
  | x :: y :: t =>
    if listMax (y :: t) ≤ x then 0 else argmaxIdx (y :: t) + 1

/-- `MonitoringService.CLASS_NAMES = {0: 'No Fire', 1: 'Fire'}`. -/
def className (i : ℕ) : Option String :=
  if i = 0 then some "No Fire" else if i = 1 then some "Fire" else none

/-- The success dictionary returned by `predict_fire` (the ISO timestamp
string is omitted from the embedding). -/
structure PredOk where
  prediction : String
  confidence : ℚ
  rawScores : List (String × ℚ)
  isFire : Bool
deriving DecidableEq

/-- Embeds `MonitoringService.predict_fire` (monitoring_service.py lines
71-116). `model` is the classifier collaborator (`detection_model`), `none`
when the CAM model failed to load. A `None` model returns the error
dictionary; otherwise the final classification vector is consumed whether
the model returned one output or an auxiliary/classification pair, the
arg-max class index is looked up in `CLASS_NAMES` with default
`"Unknown"`, and the maximum score is reported as the confidence. A
classification row with fewer than 2 entries makes the `raw_scores`
comprehension (and for the empty row, `np.argmax`) raise `IndexError`,
which the enclosing `except` turns into an error dictionary. -/
def predictFire {Img : Type} (model : Option (Img → ClassifierOutput))
    (img : Img) : Except String PredOk :=
  match model with
  | none => Except.error "Detection model not loaded"
  | some m =>
    let v := classificationOf (m img)
    if 2 ≤ v.length then
      let cls := (className (argmaxIdx v)).getD "Unknown"
      Except.ok
        { prediction := cls
          confidence := listMax v
          rawScores := [("No Fire", v.getD 0 0), ("Fire", v.getD 1 0)]
          isFire := decide (cls = "Fire") }
    else Except.error "index out of range"

/- ===================================================================
   monitoring_service.py — scan_zone_for_fire / run_full_scan / history
   =================================================================== -/

/-- A configured zone (`sentinel_service.get_zones()` entry): name plus the
four bounding-box scalars `[lon_min, lat_min, lon_max, lat_max]`. -/
structure Zone where
  name : String
  b0 : ℚ
  b1 : ℚ
  b2 : ℚ
  b3 : ℚ
deriving DecidableEq

/-- Python's `str.lower()` on a zone name (ASCII lowering, character by
character). -/
def lowerName (s : String) : String :=
  String.mk (s.data.map Char.toLower)

/-- The zone-centre computation of `scan_zone_for_fire` lines 147-156:
case-insensitive lookup of the zone; centre of the bbox when found, the
default Morocco centre `(32.0, -6.0)` otherwise. -/
def zoneCenter (zones : List Zone) (zoneName : String) : ℚ × ℚ :=
  match zones.find? (fun z => lowerName z.name = lowerName zoneName) with
  | some z => ((z.b1 + z.b3) / 2, (z.b0 + z.b2) / 2)
  | none => (32, -6)

/-- The successful per-zone result dictionary built by `scan_zone_for_fire`
(the ISO timestamp string and the base64 image payload are omitted from the
embedding). -/
structure DetectionResult where
  zone : String
  prediction : String
  confidence : ℚ
  isFire : Bool
  coordinates : ℚ × ℚ
deriving DecidableEq

/-- One entry of a scan cycle's `results` list: either the per-zone error
dictionary `{"zone": ..., "error": ...}` or a successful detection. -/
inductive ZoneResult
  | err (zone : String) (msg : String)
  | ok (d : DetectionResult)
deriving DecidableEq

/-- External collaborators of the monitoring service: the configured zones,
the imagery acquisition `sentinel_service.scan_zone` (an error covers both
an `"error"` key in its result and a missing `"image"` payload), and the
classifier model used by `predict_fire`. -/
structure Env (Img : Type) where
  zones : List Zone
  acquire : String → Except String Img
  model : Option (Img → ClassifierOutput)

/-- Embeds `MonitoringService.scan_zone_for_fire` (monitoring_service.py
lines 118-168): acquisition failure or missing image data yields the
per-zone error entry; a `predict_fire` error yields the per-zone error
entry; otherwise the result dictionary is assembled with the zone's centre
coordinates. -/
def scanZoneForFire {Img : Type} (env : Env Img) (zoneName : String) :
    ZoneResult :=
  match env.acquire zoneName with
  | Except.error e => ZoneResult.err zoneName e
  | Except.ok img =>
    match predictFire env.model img with
    | Except.error e => ZoneResult.err zoneName e
    | Except.ok p =>
      ZoneResult.ok
        { zone := zoneName
          prediction := p.prediction
          confidence := p.confidence
          isFire := p.isFire
          coordinates := zoneCenter env.zones zoneName }

/-- `r.get("is_fire")` truthiness on a results entry: `False`/missing on an
error dictionary. -/
def isFireRes : ZoneResult → Bool
  | ZoneResult.ok d => d.isFire
  | ZoneResult.err _ _ => false

/-- The dispatch guard of `run_full_scan` line 188:
`result.get("is_fire") and result.get("confidence", 0) >= threshold`. -/
def qualifies (threshold : ℚ) : ZoneResult → Bool
  | ZoneResult.ok d => d.isFire && decide (threshold ≤ d.confidence)
  | ZoneResult.err _ _ => false

/-- One `detection_history` entry appended by `run_full_scan` lines 199-203
(the timestamp is an integer in the embedding). -/
structure ScanRecord where
  timestamp : ℤ
  results : List ZoneResult
  firesDetected : ℕ
deriving DecidableEq

/-- The history append of `run_full_scan` lines 198-205:
`detection_history.append(entry)` followed by
`detection_history = detection_history[-100:]` (the lock around it is the
mutual exclusion of the Python code, elided in this sequential embedding).
-/
def appendScan (h : List ScanRecord) (r : ScanRecord) : List ScanRecord :=
  let l := h ++ [r]
  l.drop (l.length - 100)

/-- Observable events of one `run_full_scan` cycle: a zone scan completing
with its result, a call to `_handle_detection` (the alert dispatch), and
the append of the cycle record to `detection_history`. -/
inductive Event
  | scan (zone : String) (r : ZoneResult)
  | dispatch (r : ZoneResult)
  | append (record : ScanRecord)
deriving DecidableEq

/-- The body of the `for zone in zones` loop of `run_full_scan` lines
182-195, accumulating the results list and the event trace: scan the zone,
append the result, and when the dispatch guard passes call
`_handle_detection` immediately. -/
def scanStep {Img : Type} (env : Env Img) (threshold : ℚ)
    (acc : List ZoneResult × List Event) (z : Zone) :
    List ZoneResult × List Event :=
  let r := scanZoneForFire env z.name
  (acc.1 ++ [r],
   acc.2 ++ [Event.scan z.name r] ++
     (if qualifies threshold r then [Event.dispatch r] else []))

/-- The per-zone event block: the scan event followed by the dispatch event
exactly when the result qualifies. -/
def cycleEvents {Img : Type} (env : Env Img) (threshold : ℚ) (z : Zone) :
    List Event :=
  let r := scanZoneForFire env z.name
  Event.scan z.name r ::
    (if qualifies threshold r then [Event.dispatch r] else [])

/-- Embeds `MonitoringService.run_full_scan` (monitoring_service.py lines
170-209): every configured zone is scanned in order (a failing zone
contributes its error entry — in the source either as the value returned
by `scan_zone_for_fire` or via the `except` arm of the loop — and the
cycle continues), `_handle_detection` is called inside the loop for each
qualifying result, and afterwards one record holding all results and the
count of entries with `is_fire` is appended to the bounded history.
Returns the results list, the new history, and the event trace. -/
def runFullScan {Img : Type} (env : Env Img) (threshold : ℚ) (now : ℤ)
    (hist : List ScanRecord) :
    List ZoneResult × List ScanRecord × List Event :=
  let scanned := env.zones.foldl (scanStep env threshold) ([], [])
  let record : ScanRecord :=
    { timestamp := now
      results := scanned.1
      firesDetected := (scanned.1.filter isFireRes).length }
  (scanned.1, appendScan hist record, scanned.2 ++ [Event.append record])

/-- The results passed to `_handle_detection` during a cycle, in call
order, read off the event trace. -/
def dispatchedResults (tr : List Event) : List ZoneResult :=
  tr.filterMap fun e =>
    match e with
    | Event.dispatch r => some r
    | _ => none

/-- Embeds `MonitoringService.get_history` (monitoring_service.py lines
397-400): `return self.detection_history[-limit:]` under the lock. Python
slice semantics: `-limit` for positive `limit` clamps at the front of the
list, and for `limit = 0` the slice `[-0:] = [0:]` is the whole list. -/
def getHistory (h : List ScanRecord) (limit : ℕ) : List ScanRecord :=
  if limit = 0 then h else h.drop (h.length - limit)

/-- Modelled from the spec: `recent(limit)` as the spec words it — "returns
the last `limit` entries, most-recent-last, `limit` clamped to history
length", with the claim's reading that limit 0 returns no entries. -/
def recentSpec (h : List ScanRecord) (limit : ℕ) : List ScanRecord :=
  h.drop (h.length - limit)

/- ===================================================================
   monitoring_service.py — start/stop state machine and _handle_detection
   =================================================================== -/

/-- The mutable attributes of `MonitoringService` touched by
`start_monitoring` / `stop_monitoring`: the module flag
`SCHEDULER_AVAILABLE`, `is_running`, `scan_interval_hours`,
`detection_threshold`, `detection_history`, and whether the
`satellite_scan` job is scheduled on the `BackgroundScheduler`. -/
structure MonState where
  schedulerAvailable : Bool
  isRunning : Bool
  scanIntervalHours : ℚ
  detectionThreshold : ℚ
  history : List ScanRecord
  jobScheduled : Bool
deriving DecidableEq

/-- Outcomes of `start_monitoring`. -/
inductive StartOutcome
  | schedulerUnavailable
  | alreadyRunning
  | started
deriving DecidableEq

/-- Outcomes of `stop_monitoring`. -/
inductive StopOutcome
  | notRunning
  | stopped
deriving DecidableEq

/-- Embeds `MonitoringService.start_monitoring` (monitoring_service.py
lines 316-352): reject when the scheduler is unavailable; reject with
"Monitoring already running" when `is_running` (before any attribute is
assigned); otherwise record the interval, schedule the job, set
`is_running`, and synchronously run one full scan whose record is appended
to the history. -/
def startMonitoring {Img : Type} (env : Env Img) (now : ℤ) (s : MonState)
    (intervalHours : ℚ) : MonState × StartOutcome :=
  if s.schedulerAvailable = false then (s, StartOutcome.schedulerUnavailable)
  else if s.isRunning then (s, StartOutcome.alreadyRunning)
  else
    let s1 := { s with
      scanIntervalHours := intervalHours
      jobScheduled := true
      isRunning := true }
    ({ s1 with
        history := (runFullScan env s1.detectionThreshold now s1.history).2.1 },
     StartOutcome.started)

/-- Embeds `MonitoringService.stop_monitoring` (monitoring_service.py lines
354-369): reject with "Monitoring not running" when not running (no
attribute assigned); otherwise remove the job, shut the scheduler down and
clear `is_running`. -/
def stopMonitoring (s : MonState) : MonState × StopOutcome :=
  if s.isRunning = false then (s, StopOutcome.notRunning)
  else ({ s with jobScheduled := false, isRunning := false },
        StopOutcome.stopped)

/-- A notifier channel contacted by `_handle_detection`. -/
inductive NotifierCall
  | email
  | telegram
deriving DecidableEq

/-- The confidence bucket of `_handle_detection` line 233:
`"High" if confidence > 0.85 else "Low"`. -/
def confidenceBucket (c : ℚ) : String :=
  if 85 / 100 < c then "High" else "Low"

/-- The result enriched by `_handle_detection` lines 230-240 with the
simulated brightness and the computed spread radius. -/
structure EnrichedResult where
  base : DetectionResult
  brightness : ℚ
  spreadRadius : ℚ
deriving DecidableEq

/-- Embeds `MonitoringService._handle_detection` together with
`_send_telegram_alert` (monitoring_service.py lines 211-314), the path
every qualifying satellite result takes: send the email alert when the
email service is available, simulate a brightness (`random.uniform`, here
a parameter), bucket the confidence, enrich the result with the spread
estimate from `prediction_service.calculate_spread` (a collaborator
parameter), and post the Telegram alert when `BOT_TOKEN`/`CHAT_ID` are
configured. No cooldown state exists on this path: neither function reads
a clock or a last-alert timestamp before contacting the notifiers. -/
def handleDetection (emailAvailable : Bool) (telegramCreds : Bool)
    (spreadCalc : ℚ → String → ℚ) (brightness : ℚ) (r : DetectionResult) :
    EnrichedResult × List NotifierCall :=
  let emailCalls := if emailAvailable then [NotifierCall.email] else []
  let enriched : EnrichedResult :=
    { base := r
      brightness := brightness
      spreadRadius := spreadCalc brightness (confidenceBucket r.confidence) }
  let telegramCalls := if telegramCreds then [NotifierCall.telegram] else []
  (enriched, emailCalls ++ telegramCalls)

/- ===================================================================
   yolo_service.py — interleaving model of the unlocked check-then-set
   =================================================================== -/

/-- Local state of one thread executing `send_telegram_alert` with
credentials configured: program counter (0 = about to run the cooldown
check of lines 33-35, 1 = check done, the spawned `_send` thread of lines
37-48 not yet run, 2 = finished) and the recorded check decision. -/
structure ThreadLoc where
  pc : ℕ
  passed : Bool
deriving DecidableEq

/-- Shared state of two concurrent `send_telegram_alert` calls: the shared
`self.last_alert_time` field, the two thread-local states, and the number
of Telegram messages posted. -/
structure RaceState where
  lastAlertTime : ℤ
  th1 : ThreadLoc
  th2 : ThreadLoc
  sends : ℕ
deriving DecidableEq

/-- Initial race state: both callers poised before the cooldown check. -/
def initRaceState (la0 : ℤ) : RaceState :=
  { lastAlertTime := la0
    th1 := { pc := 0, passed := false }
    th2 := { pc := 0, passed := false }
    sends := 0 }

/-- One atomic action of thread `tid` (`false` = thread 1, `true` = thread
2) whose `time.time()` read `t1`/`t2`. The check action performs lines
33-35 of `send_telegram_alert`: read the shared `last_alert_time` and
compare against the cooldown. The commit action performs the `_send` body
of lines 37-48 on the spawned thread: post the message and write the
captured `current_time` into `last_alert_time` (nothing when the check had
failed — the caller returned without spawning). There is no lock in the
source: another thread's check may interleave between these two actions.
-/
def raceStep (cooldown t1 t2 : ℤ) (s : RaceState) (tid : Bool) : RaceState :=
  let now := if tid then t2 else t1
  let loc := if tid then s.th2 else s.th1
  match loc.pc with
  | 0 =>
    let loc' : ThreadLoc :=
      { pc := 1, passed := decide (¬ now - s.lastAlertTime < cooldown) }
    if tid then { s with th2 := loc' } else { s with th1 := loc' }
  | 1 =>
    let loc' : ThreadLoc := { loc with pc := 2 }
    if loc.passed then
      if tid then
        { s with th2 := loc', lastAlertTime := now, sends := s.sends + 1 }
      else
        { s with th1 := loc', lastAlertTime := now, sends := s.sends + 1 }
    else
      if tid then { s with th2 := loc' } else { s with th1 := loc' }
  | _ => s

/-- Run a schedule (list of thread choices) from an initial shared
timestamp, with cooldown 30 as in the source. -/
def raceRun (la0 t1 t2 : ℤ) (sched : List Bool) : RaceState :=
  sched.foldl (raceStep 30 t1 t2) (initRaceState la0)

/- ===================================================================
   Concrete instances used by counterexamples and witnesses
   =================================================================== -/

/-- A collaborator environment with no zones, unreachable imagery and no
model. -/
def env0 : Env Unit :=
  { zones := [], acquire := fun _ => Except.error "unavailable", model := none }

/-- One zone whose imagery acquisition fails. -/
def envErr : Env Unit :=
  { zones := [Zone.mk "A" 0 0 0 0]
    acquire := fun _ => Except.error "down"
    model := none }

/-- Imagery succeeds but the CAM model is not loaded. -/
def envNoModel : Env Unit :=
  { zones := [Zone.mk "B" 0 0 0 0]
    acquire := fun _ => Except.ok ()
    model := none }

/-- Two zones: scanning `A` yields a qualifying fire (score 90 against
threshold 70 — fixture scores are percentages, kept as whole rationals),
scanning `B` yields a non-fire result. The imagery datum is the zone name
itself. -/
def envAB : Env String :=
  { zones := [Zone.mk "A" 0 0 2 2, Zone.mk "B" 0 0 2 2]
    acquire := fun n => Except.ok n
    model := some (fun n =>
      if n = "A" then ClassifierOutput.single [10, 90]
      else ClassifierOutput.single [70, 30]) }

/-- One zone classified `Fire` with score 60, below the threshold 70:
counted as a fire in the cycle record but never dispatched. -/
def envBelow : Env String :=
  { zones := [Zone.mk "C" 0 0 2 2]
    acquire := fun n => Except.ok n
    model := some (fun _ => ClassifierOutput.single [40, 60]) }

/-- A classifier returning an auxiliary/classification pair with three
classes whose arg-max index `2` is outside `CLASS_NAMES`. -/
def camModel : Unit → ClassifierOutput :=
  fun _ => ClassifierOutput.pair [5] [10, 20, 70]

/-- A distinct history record per index. -/
def recN (i : ℕ) : ScanRecord :=
  { timestamp := (i : ℤ), results := [], firesDetected := i }

/-- A three-entry history. -/
def hist3 : List ScanRecord := [recN 0, recN 1, recN 2]

/-- The spec scenario's result B: label `Fire`, confidence `0.95`,
arriving 10 seconds after result A was dispatched. -/
def resB : DetectionResult :=
  { zone := "Zone B"
    prediction := "Fire"
    confidence := 95/100
    isFire := true
    coordinates := (1, 1) }

/-- A monitoring state in the `Running` state (scheduler available, as any
reachable running state has it). -/
def runningState : MonState :=
  { schedulerAvailable := true
    isRunning := true
    scanIntervalHours := 6
    detectionThreshold := 7/10
    history := []
    jobScheduled := true }

/-- A monitoring state in the `Idle` state. -/
def idleState : MonState :=
  { schedulerAvailable := true
    isRunning := false
    scanIntervalHours := 6
    detectionThreshold := 7/10
    history := []
    jobScheduled := false }

/- ===================================================================
   Helper lemmas
   =================================================================== -/

/-- The score at the arg-max index is the maximum score. -/
theorem getD_argmaxIdx : ∀ (v : List ℚ), v ≠ [] →
    v.getD (argmaxIdx v) 0 = listMax v
  | [], h => absurd rfl h
  | [_], _ => rfl
  | x :: y :: t, _ => by
    by_cases hle : listMax (y :: t) ≤ x
    · simp only [argmaxIdx, listMax, if_pos hle, List.getD_cons_zero]
      exact (max_eq_left hle).symm
    · have ih := getD_argmaxIdx (y :: t) (by simp)
      simp only [argmaxIdx, listMax, if_neg hle, List.getD_cons_succ]
      rw [ih, max_eq_right (le_of_not_le hle)]

/-- A successful `predict_fire` result has `is_fire` exactly when the
predicted label is `Fire`. -/
theorem predictFire_isFire {Img : Type} (model : Option (Img → ClassifierOutput))
    (img : Img) (p : PredOk) (h : predictFire model img = Except.ok p) :
    p.isFire = decide (p.prediction = "Fire") := by
  unfold predictFire at h
  match model with
  | none => exact absurd h (by simp)
  | some m =>
    simp only at h
    split at h
    · cases h
      rfl
    · exact absurd h (by simp)

/-- Unfolding the scan loop of `run_full_scan`. -/
theorem foldl_scanStep_eq {Img : Type} (env : Env Img) (θ : ℚ) :
    ∀ (zs : List Zone) (a : List ZoneResult) (e : List Event),
    zs.foldl (scanStep env θ) (a, e) =
      (a ++ zs.map (fun z => scanZoneForFire env z.name),
       e ++ (zs.map (cycleEvents env θ)).flatten)
  | [], a, e => by simp
  | z :: zs, a, e => by
    have hstep : scanStep env θ (a, e) z =
        (a ++ [scanZoneForFire env z.name], e ++ cycleEvents env θ z) := by
      simp [scanStep, cycleEvents]
    rw [List.foldl_cons, hstep, foldl_scanStep_eq env θ zs]
    simp [cycleEvents, List.append_assoc]

/-- The results of a cycle are the per-zone scans, in order. -/
theorem runFullScan_results {Img : Type} (env : Env Img) (θ : ℚ) (now : ℤ)
    (hist : List ScanRecord) :
    (runFullScan env θ now hist).1 =
      env.zones.map (fun z => scanZoneForFire env z.name) := by
  unfold runFullScan
  rw [foldl_scanStep_eq]
  simp

/-- The history produced by a cycle is the bounded append of the record
holding all results and the fire count. -/
theorem runFullScan_hist {Img : Type} (env : Env Img) (θ : ℚ) (now : ℤ)
    (hist : List ScanRecord) :
    (runFullScan env θ now hist).2.1 =
      appendScan hist
        { timestamp := now
          results := (runFullScan env θ now hist).1
          firesDetected :=
            ((runFullScan env θ now hist).1.filter isFireRes).length } := by
  unfold runFullScan
  rw [foldl_scanStep_eq]

/-- The event trace of a cycle: the per-zone blocks followed by the append.
-/
theorem runFullScan_trace {Img : Type} (env : Env Img) (θ : ℚ) (now : ℤ)
    (hist : List ScanRecord) :
    (runFullScan env θ now hist).2.2 =
      (env.zones.map (cycleEvents env θ)).flatten ++
        [Event.append
          { timestamp := now
            results := (runFullScan env θ now hist).1
            firesDetected :=
              ((runFullScan env θ now hist).1.filter isFireRes).length }] := by
  unfold runFullScan
  rw [foldl_scanStep_eq]
  simp

/-- `dispatchedResults` distributes over trace concatenation. -/
theorem dispatchedResults_append (a b : List Event) :
    dispatchedResults (a ++ b) = dispatchedResults a ++ dispatchedResults b :=
  List.filterMap_append a b _

/-- The dispatch calls recorded in the per-zone blocks are exactly the
qualifying results, in order. -/
theorem dispatchedResults_blocks {Img : Type} (env : Env Img) (θ : ℚ) :
    ∀ zs : List Zone,
    dispatchedResults ((zs.map (cycleEvents env θ)).flatten) =
      (zs.map (fun z => scanZoneForFire env z.name)).filter (qualifies θ)
  | [] => rfl
  | z :: zs => by
    rw [List.map_cons, List.flatten_cons, dispatchedResults_append,
      dispatchedResults_blocks env θ zs, List.map_cons, List.filter_cons]
    by_cases hq : qualifies θ (scanZoneForFire env z.name)
    · simp [cycleEvents, dispatchedResults, hq]
    · simp [cycleEvents, dispatchedResults, hq]

/-- One bounded append yields length `min (n + 1) 100`. -/
theorem appendScan_length (h : List ScanRecord) (r : ScanRecord) :
    (appendScan h r).length = min (h.length + 1) 100 := by
  simp [appendScan]
  omega

/-- The record just appended is always the last history entry (eviction
only drops from the front). -/
theorem appendScan_getLast (h : List ScanRecord) (r : ScanRecord) :
    (appendScan h r).getLast? = some r := by
  unfold appendScan
  rw [List.drop_append_of_le_length (by simp)]
  exact List.getLast?_concat _

/-- The bounded history never exceeds 100 entries once below the bound. -/
theorem foldl_appendScan_le :
    ∀ (recs : List ScanRecord) (h : List ScanRecord), h.length ≤ 100 →
    (recs.foldl appendScan h).length ≤ 100
  | [], _, hh => hh
  | r :: recs, h, _ => by
    rw [List.foldl_cons]
    exact foldl_appendScan_le recs _ (by rw [appendScan_length]; omega)

/-- Qualifying entries are fire entries, so they are counted no more often.
-/
theorem length_filter_qualifies_le (θ : ℚ) (rs : List ZoneResult) :
    (rs.filter (qualifies θ)).length ≤ (rs.filter isFireRes).length := by
  simp only [← List.countP_eq_length_filter]
  refine List.countP_mono_left fun r _ hq => ?_
  match r with
  | ZoneResult.ok d =>
    simp only [qualifies, Bool.and_eq_true] at hq
    simpa [isFireRes] using hq.1
  | ZoneResult.err _ _ => exact absurd hq (by simp [qualifies])

/- ===================================================================
   Claim theorems
   =================================================================== -/

/-- C1 (counterexample): the claim's scenario result B — label `Fire`,
confidence `0.95`, arriving 10 seconds after result A was dispatched, i.e.
inside the 30-second cooldown window — is handled by the satellite
monitoring alert path `_handle_detection`, which consults no last-alert
timestamp at all: with both channels configured it contacts the email and
Telegram notifiers, instead of being silently dropped with no notifier
call as the claim states. -/
theorem c1_counterexample :
    (handleDetection true true (fun _ _ => 2) 350 resB).2 =
      [NotifierCall.email, NotifierCall.telegram] ∧
    (handleDetection true true (fun _ _ => 2) 350 resB).2 ≠ [] := by
  constructor
  · rfl
  · decide

/-- C1 (amended): for every dispatch attempt through the live-stream
dispatcher `YoloService.send_telegram_alert` with credentials configured:
within the cooldown the alert is silently dropped with no notifier call
and the state is unchanged; otherwise the alert is sent and, on a
successful post, the last-alert timestamp is updated to the check time.
With the initial state (`last_alert_time = 0`, cooldown 30) and any
wall-clock base `T ≥ 30`, a qualifying alert at `T` is dispatched, one at
`T + 10` is suppressed, and one at `T + 31` is dispatched. -/
theorem c1_cooldown_dispatch :
    (∀ (s : YoloState) (ok : Bool) (t : ℤ),
      t - s.lastAlertTime < s.alertCooldown →
      sendTelegramAlert true ok s t = (s, AlertOutcome.suppressed)) ∧
    (∀ (s : YoloState) (t : ℤ),
      s.alertCooldown ≤ t - s.lastAlertTime →
      sendTelegramAlert true true s t =
        ({ s with lastAlertTime := t }, AlertOutcome.sent)) ∧
    (∀ T : ℤ, 30 ≤ T →
      dispatchRun initYoloState [T, T + 10, T + 31] =
        [AlertOutcome.sent, AlertOutcome.suppressed, AlertOutcome.sent]) := by
  have hsupp : ∀ (s : YoloState) (ok : Bool) (t : ℤ),
      t - s.lastAlertTime < s.alertCooldown →
      sendTelegramAlert true ok s t = (s, AlertOutcome.suppressed) := by
    intro s ok t h
    simp [sendTelegramAlert, h]
  have hsent : ∀ (s : YoloState) (t : ℤ),
      s.alertCooldown ≤ t - s.lastAlertTime →
      sendTelegramAlert true true s t =
        ({ s with lastAlertTime := t }, AlertOutcome.sent) := by
    intro s t h
    simp [sendTelegramAlert, not_lt.mpr h]
  refine ⟨hsupp, hsent, ?_⟩
  intro T hT
  have e1 := hsent initYoloState T (by simp [initYoloState]; omega)
  have e2 := hsupp { initYoloState with lastAlertTime := T } true (T + 10)
    (by simp [initYoloState])
  have e3 := hsent { initYoloState with lastAlertTime := T } (T + 31)
    (by simp [initYoloState])
  simp [dispatchRun, e1, e2, e3]

/-- C1 witness: concrete dispatches through the live-stream dispatcher. -/
theorem c1_cooldown_dispatch_witness :
    sendTelegramAlert true true { lastAlertTime := 100, alertCooldown := 30 } 110 =
      ({ lastAlertTime := 100, alertCooldown := 30 }, AlertOutcome.suppressed) ∧
    sendTelegramAlert true true { lastAlertTime := 0, alertCooldown := 30 } 50 =
      ({ lastAlertTime := 50, alertCooldown := 30 }, AlertOutcome.sent) ∧
    dispatchRun initYoloState [100, 100 + 10, 100 + 31] =
      [AlertOutcome.sent, AlertOutcome.suppressed, AlertOutcome.sent] :=
  ⟨c1_cooldown_dispatch.1 _ true 110 (by decide),
   c1_cooldown_dispatch.2.1 _ 50 (by decide),
   c1_cooldown_dispatch.2.2 100 (by decide)⟩

/-- C10: when the Telegram post of the live-stream dispatcher raises, the
last-alert timestamp is left unchanged, so a failed send starts no
cooldown window: a later qualifying alert whose distance from the
*previous successful* alert passes the cooldown is still sent, even
within 30 seconds of the failed attempt. -/
theorem c10_failed_send_keeps_timestamp :
    ∀ (s : YoloState) (t t2 : ℤ),
    s.alertCooldown ≤ t - s.lastAlertTime →
    (sendTelegramAlert true false s t = (s, AlertOutcome.sendFailed) ∧
     (s.alertCooldown ≤ t2 - s.lastAlertTime →
       sendTelegramAlert true true ((sendTelegramAlert true false s t).1) t2 =
         ({ s with lastAlertTime := t2 }, AlertOutcome.sent))) := by
  intro s t t2 h
  have hfail : sendTelegramAlert true false s t = (s, AlertOutcome.sendFailed) := by
    simp [sendTelegramAlert, not_lt.mpr h]
  refine ⟨hfail, fun h2 => ?_⟩
  rw [hfail]
  simp [sendTelegramAlert, not_lt.mpr h2]

/-- C10 witness: a failed send at `t = 40` from the initial state leaves
the timestamp at 0, and the next attempt at `t = 41` — only 1 second
later, well inside what a started cooldown window would cover — is sent.
-/
theorem c10_failed_send_keeps_timestamp_witness :
    sendTelegramAlert true false initYoloState 40 =
      (initYoloState, AlertOutcome.sendFailed) ∧
    ((41 : ℤ) - 40 < 30) ∧
    sendTelegramAlert true true ((sendTelegramAlert true false initYoloState 40).1) 41 =
      ({ initYoloState with lastAlertTime := 41 }, AlertOutcome.sent) :=
  ⟨(c10_failed_send_keeps_timestamp initYoloState 40 41 (by decide)).1,
   by decide,
   (c10_failed_send_keeps_timestamp initYoloState 40 41 (by decide)).2 (by decide)⟩

set_option maxRecDepth 40000 in
/-- C2: starting from the empty history, after any sequence of cycle
appends the detection history holds at most 100 records; after 105 appends
of distinct records the 5 oldest are gone and the remaining 100 keep their
insertion order. -/
theorem c2_history_bounded :
    (∀ recs : List ScanRecord, (recs.foldl appendScan []).length ≤ 100) ∧
    ((List.range 105).map recN).foldl appendScan [] =
      (((List.range 105).map recN).drop 5) := by
  constructor
  · intro recs
    exact foldl_appendScan_le recs [] (by simp)
  · decide

/-- C3: every full scan cycle produces exactly one results entry per
configured zone — the per-zone scan outcomes in zone order, so a zone
whose acquisition or classification fails contributes its error entry
without aborting the cycle — and the record appended to the history
carries the full results list (successes and failures alike). -/
theorem c3_one_entry_per_zone :
    ∀ (Img : Type) (env : Env Img) (θ : ℚ) (now : ℤ) (hist : List ScanRecord),
    (runFullScan env θ now hist).1 =
        env.zones.map (fun z => scanZoneForFire env z.name) ∧
    (runFullScan env θ now hist).1.length = env.zones.length ∧
    (runFullScan env θ now hist).2.1 =
      appendScan hist
        { timestamp := now
          results := (runFullScan env θ now hist).1
          firesDetected :=
            ((runFullScan env θ now hist).1.filter isFireRes).length } ∧
    (∀ (zoneName e : String), env.acquire zoneName = Except.error e →
      scanZoneForFire env zoneName = ZoneResult.err zoneName e) ∧
    (∀ (zoneName : String) (img : Img) (e : String),
      env.acquire zoneName = Except.ok img →
      predictFire env.model img = Except.error e →
      scanZoneForFire env zoneName = ZoneResult.err zoneName e) := by
  intro Img env θ now hist
  refine ⟨runFullScan_results env θ now hist, ?_,
    runFullScan_hist env θ now hist, ?_, ?_⟩
  · rw [runFullScan_results env θ now hist]
    simp
  · intro zoneName e h
    simp [scanZoneForFire, h]
  · intro zoneName img e ha hp
    simp [scanZoneForFire, ha, hp]

/-- C3 witness: a cycle over one zone whose acquisition fails yields the
single error entry, and an available image with an unloaded model yields
the classification error entry. -/
theorem c3_one_entry_per_zone_witness :
    (runFullScan envErr 70 0 []).1 = [ZoneResult.err "A" "down"] ∧
    scanZoneForFire envErr "A" = ZoneResult.err "A" "down" ∧
    scanZoneForFire envNoModel "B" =
      ZoneResult.err "B" "Detection model not loaded" :=
  ⟨((c3_one_entry_per_zone Unit envErr 70 0 []).1).trans (by decide),
   (c3_one_entry_per_zone Unit envErr 70 0 []).2.2.2.1 "A" "down" rfl,
   (c3_one_entry_per_zone Unit envNoModel 70 0 []).2.2.2.2 "B" ()
     "Detection model not loaded" rfl rfl⟩

/-- C4: `start_monitoring` on a running service (normal operation has the
scheduler available) returns the already-running error and leaves every
attribute — availability flag, running flag, interval, threshold, history
and scheduled job — unchanged; `stop_monitoring` on an idle service
returns the not-running error and likewise changes nothing. -/
theorem c4_misuse_rejected :
    ∀ (Img : Type) (env : Env Img) (now : ℤ) (s : MonState) (ih : ℚ),
    (s.schedulerAvailable = true → s.isRunning = true →
      startMonitoring env now s ih = (s, StartOutcome.alreadyRunning)) ∧
    (s.isRunning = false → stopMonitoring s = (s, StopOutcome.notRunning)) := by
  intro Img env now s ih
  constructor
  · intro ha hr
    simp [startMonitoring, ha, hr]
  · intro h
    simp [stopMonitoring, h]

/-- C4 witness: concrete running and idle states. -/
theorem c4_misuse_rejected_witness :
    startMonitoring env0 0 runningState 1 =
      (runningState, StartOutcome.alreadyRunning) ∧
    stopMonitoring idleState = (idleState, StopOutcome.notRunning) :=
  ⟨(c4_misuse_rejected Unit env0 0 runningState 1).1 rfl rfl,
   (c4_misuse_rejected Unit env0 0 idleState 1).2 rfl⟩

/-- C5 (counterexample): the claim that the dispatcher calls happen after
all zones have been processed is false: with two zones where zone `A`
yields a qualifying fire, the cycle's event trace contains the
`_handle_detection` call for `A` at position 1, before the scan of zone
`B` at position 2 — the source dispatches inside the zone loop, not after
it. -/
theorem c5_counterexample :
    ¬ (∀ (i j : ℕ) (r r' : ZoneResult) (z : String),
        ((runFullScan envAB 70 0 []).2.2)[i]? = some (Event.dispatch r) →
        ((runFullScan envAB 70 0 []).2.2)[j]? = some (Event.scan z r') →
        j < i) := by
  intro h
  have h1 : ((runFullScan envAB 70 0 []).2.2)[1]? =
      some (Event.dispatch (scanZoneForFire envAB "A")) := rfl
  have h2 : ((runFullScan envAB 70 0 []).2.2)[2]? =
      some (Event.scan "B" (scanZoneForFire envAB "B")) := rfl
  exact absurd (h 1 2 _ _ _ h1 h2) (by decide)

/-- C5 (amended): in every cycle the dispatcher is invoked exactly once
per qualifying result — in result order, each invocation immediately after
its zone's scan, interleaved with the processing of the remaining zones
rather than after all of them — and every invocation precedes the single
history append, which closes the trace; a result qualifies exactly when
its label is `Fire` and its confidence reaches the threshold, so a
below-threshold result never reaches the dispatcher. -/
theorem c5_dispatch_once_per_qualifying :
    ∀ (Img : Type) (env : Env Img) (θ : ℚ) (now : ℤ) (hist : List ScanRecord),
    (runFullScan env θ now hist).2.2 =
      (env.zones.map (cycleEvents env θ)).flatten ++
        [Event.append
          { timestamp := now
            results := (runFullScan env θ now hist).1
            firesDetected :=
              ((runFullScan env θ now hist).1.filter isFireRes).length }] ∧
    dispatchedResults (runFullScan env θ now hist).2.2 =
      ((runFullScan env θ now hist).1).filter (qualifies θ) ∧
    ((runFullScan env θ now hist).2.2).getLast? =
      some (Event.append
        { timestamp := now
          results := (runFullScan env θ now hist).1
          firesDetected :=
            ((runFullScan env θ now hist).1.filter isFireRes).length }) ∧
    (∀ zoneName : String,
      qualifies θ (scanZoneForFire env zoneName) = true ↔
        ∃ d, scanZoneForFire env zoneName = ZoneResult.ok d ∧
          d.prediction = "Fire" ∧ θ ≤ d.confidence) := by
  intro Img env θ now hist
  refine ⟨runFullScan_trace env θ now hist, ?_, ?_, ?_⟩
  · rw [runFullScan_trace env θ now hist, dispatchedResults_append,
      dispatchedResults_blocks env θ env.zones,
      runFullScan_results env θ now hist]
    simp [dispatchedResults]
  · rw [runFullScan_trace env θ now hist]
    simp
  · intro zoneName
    unfold scanZoneForFire
    match ha : env.acquire zoneName with
    | Except.error e => simp [qualifies]
    | Except.ok img =>
      match hp : predictFire env.model img with
      | Except.error e => simp [hp, qualifies]
      | Except.ok p =>
        have hif := predictFire_isFire env.model img p hp
        simp only [hp, qualifies, hif, Bool.and_eq_true, decide_eq_true_eq]
        constructor
        · rintro ⟨hfire, hconf⟩
          exact ⟨_, rfl, hfire, hconf⟩
        · rintro ⟨d, hd, hfire, hconf⟩
          cases hd
          exact ⟨hfire, hconf⟩

/-- C6: the detection gate consumes the final classification vector
whether the classifier returns a single vector or an auxiliary/primary
pair (taking the classification component of the pair), selects the
arg-max class and reports that class's score — the row maximum — as the
confidence; an arg-max index outside `CLASS_NAMES` yields the label
`Unknown` rather than an error, and a missing classifier yields the error
result rather than a crash. -/
theorem c6_detection_gate :
    (∀ (Img : Type) (img : Img),
      @predictFire Img none img =
        Except.error "Detection model not loaded") ∧
    (∀ aux v, classificationOf (ClassifierOutput.pair aux v) = v) ∧
    (∀ v, classificationOf (ClassifierOutput.single v) = v) ∧
    (∀ (Img : Type) (m : Img → ClassifierOutput) (img : Img),
      2 ≤ (classificationOf (m img)).length →
      predictFire (some m) img = Except.ok
        { prediction :=
            (className (argmaxIdx (classificationOf (m img)))).getD "Unknown"
          confidence := listMax (classificationOf (m img))
          rawScores :=
            [("No Fire", (classificationOf (m img)).getD 0 0),
             ("Fire", (classificationOf (m img)).getD 1 0)]
          isFire := decide
            ((className (argmaxIdx (classificationOf (m img)))).getD "Unknown"
              = "Fire") }) ∧
    (∀ v : List ℚ, v ≠ [] → v.getD (argmaxIdx v) 0 = listMax v) ∧
    (∀ i : ℕ, 2 ≤ i → (className i).getD "Unknown" = "Unknown") := by
  refine ⟨?_, ?_, ?_, ?_, getD_argmaxIdx, ?_⟩
  · intro Img img
    rfl
  · intro aux v
    rfl
  · intro v
    rfl
  · intro Img m img h
    simp [predictFire, h]
  · intro i hi
    have h0 : i ≠ 0 := by omega
    have h1 : i ≠ 1 := by omega
    simp [className, h0, h1]

/-- C6 witness: a pair-output classifier with three classes whose arg-max
index 2 is outside the class map. -/
theorem c6_detection_gate_witness :
    predictFire (some camModel) () =
      Except.ok
        { prediction := "Unknown", confidence := 70
          rawScores := [("No Fire", 10), ("Fire", 20)], isFire := false } ∧
    ([10, 20, 70] : List ℚ).getD (argmaxIdx [10, 20, 70]) 0 =
      listMax [10, 20, 70] ∧
    (className 2).getD "Unknown" = "Unknown" :=
  ⟨c6_detection_gate.2.2.2.1 Unit camModel () (by decide),
   c6_detection_gate.2.2.2.2.1 [10, 20, 70] (by decide),
   c6_detection_gate.2.2.2.2.2 2 (by decide)⟩

/-- C7 (counterexample): the claim that `get_history(0)` returns no
entries is false: Python's slice `[-0:]` is `[0:]`, so the code returns
the whole three-entry history while the spec's clamped reading returns
none. -/
theorem c7_counterexample :
    getHistory hist3 0 = hist3 ∧ getHistory hist3 0 ≠ [] ∧
    recentSpec hist3 0 = [] := by
  refine ⟨rfl, ?_, rfl⟩
  decide

/-- C7 (amended): for every positive `limit`, `get_history` returns
exactly the last `limit` entries of the history in order (a suffix,
most-recent-last), with `limit` clamped to the history length; for
`limit = 0` it returns the entire history, not no entries. -/
theorem c7_recent_clamped :
    ∀ (h : List ScanRecord) (limit : ℕ),
    (0 < limit →
      getHistory h limit = recentSpec h limit ∧
      (getHistory h limit).length = min limit h.length ∧
      getHistory h limit <:+ h) ∧
    getHistory h 0 = h := by
  intro h limit
  constructor
  · intro hl
    have hne : limit ≠ 0 := by omega
    refine ⟨by simp [getHistory, recentSpec, hne], ?_, ?_⟩
    · simp [getHistory, hne]
      omega
    · simp only [getHistory, if_neg hne]
      exact List.drop_suffix _ _
  · simp [getHistory]

/-- C7 witness: the three-entry history at limits 2 and 0. -/
theorem c7_recent_clamped_witness :
    (getHistory hist3 2 = recentSpec hist3 2 ∧
     (getHistory hist3 2).length = min 2 hist3.length ∧
     getHistory hist3 2 <:+ hist3) ∧
    getHistory hist3 0 = hist3 :=
  ⟨(c7_recent_clamped hist3 2).1 (by decide), (c7_recent_clamped hist3 2).2⟩

/-- C8 (counterexample): the claim that the cooldown check-then-set is
executed as one atomic/locked critical section — so that at most one of
two simultaneous qualifying alerts inside a cooldown window is sent — is
false for the source, which takes no lock: in the interleaving where both
threads run the cooldown check of lines 33-35 before either spawned
`_send` writes `last_alert_time`, both alerts are posted. -/
theorem c8_counterexample :
    ¬ (∀ sched : List Bool, (raceRun 0 100 100 sched).sends ≤ 1) := by
  intro h
  have h2 : (raceRun 0 100 100 [false, true, false, true]).sends = 2 := by
    decide
  have := h [false, true, false, true]
  omega

/-- C8 (amended): the check-then-set on the shared last-alert timestamp is
an unlocked read-then-write (the write even deferred to a spawned thread),
so two simultaneous qualifying dispatch calls in one cooldown window are
serialized only by scheduling luck: run sequentially the second is
suppressed and exactly one message is sent, but in the check-check-
write-write interleaving both are sent. -/
theorem c8_unlocked_check_then_set :
    ∀ (la0 t : ℤ), 30 ≤ t - la0 →
    (raceRun la0 t t [false, false, true, true]).sends = 1 ∧
    (raceRun la0 t t [false, true, false, true]).sends = 2 := by
  intro la0 t h
  have hq : ¬ ((30 : ℤ) ≤ t - t) := by omega
  constructor
  · simp [raceRun, raceStep, initRaceState, h, hq]
  · simp [raceRun, raceStep, initRaceState, h, hq]

/-- C8 witness: the two interleavings at `t = 100` from timestamp 0. -/
theorem c8_unlocked_check_then_set_witness :
    (raceRun 0 100 100 [false, false, true, true]).sends = 1 ∧
    (raceRun 0 100 100 [false, true, false, true]).sends = 2 :=
  c8_unlocked_check_then_set 0 100 (by decide)

/-- C9: the `fires_detected` count stored in each cycle record counts
every result whose `is_fire` flag is set, with no confidence filter,
while a dispatch additionally requires the confidence to reach the
threshold; hence the recorded fire count always dominates the number of
dispatch calls, and strictly exceeds it for a fire below threshold. -/
theorem c9_fire_count_dominates_dispatch :
    (∀ (Img : Type) (env : Env Img) (θ : ℚ) (now : ℤ) (hist : List ScanRecord),
      ∃ record,
        ((runFullScan env θ now hist).2.1).getLast? = some record ∧
        record.firesDetected =
          ((runFullScan env θ now hist).1.filter isFireRes).length ∧
        (dispatchedResults (runFullScan env θ now hist).2.2).length =
          (((runFullScan env θ now hist).1).filter (qualifies θ)).length ∧
        (dispatchedResults (runFullScan env θ now hist).2.2).length ≤
          record.firesDetected) ∧
    (dispatchedResults (runFullScan envBelow 70 0 []).2.2).length = 0 ∧
    ((runFullScan envBelow 70 0 []).1.filter isFireRes).length = 1 := by
  refine ⟨?_, rfl, rfl⟩
  intro Img env θ now hist
  have hdisp : dispatchedResults (runFullScan env θ now hist).2.2 =
      ((runFullScan env θ now hist).1).filter (qualifies θ) := by
    rw [runFullScan_trace env θ now hist, dispatchedResults_append,
      dispatchedResults_blocks env θ env.zones,
      runFullScan_results env θ now hist]
    simp [dispatchedResults]
  have hlast : ((runFullScan env θ now hist).2.1).getLast? =
      some { timestamp := now
             results := (runFullScan env θ now hist).1
             firesDetected :=
               ((runFullScan env θ now hist).1.filter isFireRes).length } := by
    rw [runFullScan_hist env θ now hist]
    exact appendScan_getLast _ _
  refine ⟨_, hlast, rfl, ?_, ?_⟩
  · rw [hdisp]
  · rw [hdisp]
    exact length_filter_qualifies_le θ _
